import Mathlib

/-!
Verification of the any-llm gateway core against its specification.

The Python sources embedded here:
  src/any_llm/gateway/auth/tokens.py      (token service)
  src/any_llm/gateway/routes/image.py     (streaming proxy / event multiplexer)
  src/any_llm/gateway/routes/profile.py   (profile route, master-key handling)

Machine-level conventions: Python byte values are `Nat` with the invariant
`< 256` stated where it matters; epoch timestamps and minute counts are `Int`
(Python `int` is unbounded); Python `None`/missing attributes are `Option`;
Python truthiness of strings and lists is made explicit at each use site.
-/

deriving instance DecidableEq for Except

namespace Gateway

/-! ## Base64

Modelled from the spec: the `base64` standard-library module is outside the
repository; these definitions embed standard base64 with `=` padding, which is
what `base64.b64encode` / `base64.b64decode` compute on byte strings. -/

def b64alphabet : List Char :=
  "ABCDEFGHIJKLMNOPQRSTUVWXYZabcdefghijklmnopqrstuvwxyz0123456789+/".toList

def b64char (n : Nat) : Char := b64alphabet.getD n 'A'

def b64val (c : Char) : Option Nat := b64alphabet.findIdx? (fun x => x = c)

/-- Byte list to base64 characters, three bytes at a time, `=`-padded. -/
def b64encodeChars : List Nat → List Char
  | b1 :: b2 :: b3 :: rest =>
    let n := b1 * 65536 + b2 * 256 + b3
    b64char (n / 262144) :: b64char (n / 4096 % 64) :: b64char (n / 64 % 64) ::
      b64char (n % 64) :: b64encodeChars rest
  | [b1, b2] =>
    let n := b1 * 1024 + b2 * 4
    [b64char (n / 4096), b64char (n / 64 % 64), b64char (n % 64), '=']
  | [b1] =>
    let n := b1 * 16
    [b64char (n / 64), b64char (n % 64), '=', '=']
  | [] => []

/-- Base64 characters back to bytes; `none` on malformed input. -/
def b64decodeChars : List Char → Option (List Nat)
  | [] => some []
  | c1 :: c2 :: c3 :: c4 :: rest =>
    match b64val c1, b64val c2 with
    | some s1, some s2 =>
      if c3 = '=' then
        if c4 = '=' ∧ rest = [] then some [(s1 * 64 + s2) / 16] else none
      else
        match b64val c3 with
        | some s3 =>
          if c4 = '=' then
            if rest = [] then
              some [(s1 * 4096 + s2 * 64 + s3) / 1024, (s1 * 4096 + s2 * 64 + s3) / 4 % 256]
            else none
          else
            match b64val c4 with
            | some s4 =>
              match b64decodeChars rest with
              | some tail =>
                let n := s1 * 262144 + s2 * 4096 + s3 * 64 + s4
                some (n / 65536 :: n / 256 % 256 :: n % 256 :: tail)
              | none => none
            | none => none
        | none => none
    | _, _ => none
  | _ => none

def b64encode (bs : List Nat) : String := String.mk (b64encodeChars bs)

def b64decode (s : String) : Option (List Nat) := b64decodeChars s.data

/-! ## Upstream chunk model (routes/image.py)

A response chunk is an object of the external provider client; the route reads
it only through `getattr` with a default, so the model records each attribute
as an `Option`. `PyBytesLike` models the dynamic type of `inline_data.data`:
`bytes`, `bytearray`, or any other value (skipped by the `isinstance` checks
at image.py lines 170-173 / 238-241). -/

inductive PyBytesLike
  | bytes (d : List Nat)
  | bytearray (d : List Nat)
  | otherTruthy
deriving DecidableEq

structure InlineData where
  data : Option PyBytesLike
  mime_type : Option String
deriving DecidableEq

/-- One part of a chunk: `text` is `none` when the attribute is missing, is
`None`, or is not a string (the `isinstance(text_value, str)` guard);
`thought` is the truthiness of `getattr(part, "thought", False)`. -/
structure Part where
  text : Option String
  thought : Bool
  inline_data : Option InlineData
deriving DecidableEq

structure Content where
  parts : Option (List Part)
deriving DecidableEq

structure Candidate where
  content : Option Content
deriving DecidableEq

/-- A chunk (streaming) or a whole response (non-streaming): both are read
through the same two attributes. -/
structure Chunk where
  parts : Option (List Part)
  candidates : Option (List Candidate)
deriving DecidableEq

/-- image.py lines 106-116: `_iter_parts`. `if parts:` is Python truthiness,
so an empty direct list falls through to the candidates location. -/
def _iter_parts (chunk : Chunk) : List Part :=
  match chunk.parts with
  | some (p :: ps) => p :: ps
  | _ =>
    match chunk.candidates with
    | some (cand :: _) =>
      match cand.content with
      | some content =>
        match content.parts with
        | some (p :: ps) => p :: ps
        | _ => []
      | none => []
    | _ => []

/-- Textual projection of a part: `isinstance(text_value, str) and text_value`
(image.py lines 146-147 / 218-219). -/
def partText (part : Part) : Option String :=
  match part.text with
  | some t => if t = "" then none else some t
  | none => none

/-- Mime resolution (image.py lines 174-180 / 242-243): a declared string type
beginning with `image/` is kept, anything else becomes `image/png`;
`str.startswith` is character-prefix matching. -/
def resolveMime (m : Option String) : String :=
  match m with
  | some s => if List.isPrefixOf "image/".data s.data then s else "image/png"
  | none => "image/png"

/-- Binary projection of a part (image.py lines 157-180 / 225-244): falsy data
is skipped, `bytearray` is coerced to `bytes`, any other value is skipped
silently, and the mime type is resolved from the declared one. -/
def partImage (part : Part) : Option (String × List Nat) :=
  match part.inline_data with
  | none => none
  | some idata =>
    match idata.data with
    | some (.bytes d) => if d = [] then none else some (resolveMime idata.mime_type, d)
    | some (.bytearray d) => if d = [] then none else some (resolveMime idata.mime_type, d)
    | some .otherTruthy => none
    | none => none

/-! ## Stream events -/

/-- The closed event kind set of the SSE stream; each constructor carries the
JSON payload fields of the corresponding `data:` line. -/
inductive Event
  | thought (content : String)
  | text (content : String)
  | image (mimeType : String) (base64 : String)
  | done
  | error (message : String)
deriving DecidableEq

def isTerminal : Event → Bool
  | .done => true
  | .error _ => true
  | _ => false

/-- Events one part contributes (image.py lines 145-188): the textual and the
binary projections are evaluated independently, text first. -/
def partEvents (part : Part) : List Event :=
  (match partText part with
   | some t => if part.thought then [Event.thought t] else [Event.text t]
   | none => []) ++
  (match partImage part with
   | some (mt, d) => [Event.image mt (b64encode d)]
   | none => [])

def chunkEvents (chunk : Chunk) : List Event :=
  ((_iter_parts chunk).map partEvents).flatten

/-- One upstream iteration step: pulling the next chunk either yields a chunk
or raises an exception with a message. -/
abbrev UpstreamStep := Except String Chunk

/-- image.py lines 142-191: the generator body. Iteration stops at the first
raising pull; a completed iteration is followed by exactly one `done`, a
raised exception is converted to exactly one `error` in its place and is not
re-raised. -/
def event_stream : List UpstreamStep → List Event
  | [] => [Event.done]
  | .error msg :: _ => [Event.error msg]
  | .ok chunk :: rest => chunkEvents chunk ++ event_stream rest

/-- Whether every pull of the upstream iteration succeeds. -/
def streamOk (s : List UpstreamStep) : Prop := ∀ x ∈ s, ∃ c, x = Except.ok c

/-! ## Resource release (image.py lines 142-197 and 200-254)

An action trace makes the client-release step observable: `emit` is a yielded
event, `close` is one attempted `client_ref.close()` call with a flag telling
whether that call raised (the bare `except` at lines 195-196 swallows it). -/

inductive Action
  | emit (e : Event)
  | close (failed : Bool)
deriving DecidableEq

def emittedEvent : Action → Option Event
  | .emit e => some e
  | .close _ => none

def isClose : Action → Bool
  | .close _ => true
  | .emit _ => false

/-- image.py lines 142-197: the generator with its `try`/`finally` made
explicit. The `finally` clause runs after the `try` body finishes, whether it
completed or ended through the `except Exception` handler, so one close
attempt follows the events on both paths; `closeFails` says whether that
attempt raises, which lines 195-196 swallow without emitting anything. -/
def event_stream_actions (s : List UpstreamStep) (closeFails : Bool) : List Action :=
  (event_stream s).map Action.emit ++ [Action.close closeFails]

/-! ## Non-streaming aggregation (image.py lines 200-254) -/

/-- A raised `fastapi.HTTPException`, carrying its status code and detail. -/
structure HTTPError where
  status_code : Nat
  detail : String
deriving DecidableEq

/-- The response model of the non-streaming route (image.py lines 34-38). -/
structure GenerateImageResponse where
  mimeType : String
  base64 : String
  texts : List String
  thoughts : List String
deriving DecidableEq

/-- The spec's UpstreamEmptyResult failure as the route raises it
(image.py lines 247-251). -/
def upstreamEmptyResult : HTTPError :=
  ⟨502, "Image generation returned no image parts"⟩

/-- image.py lines 217-254: the aggregation loop over the response parts,
carrying the `texts` and `thoughts` accumulators. The loop `break`s at the
first valid binary payload and builds the response from the accumulators at
that point; exhausting the parts without a payload raises the 502. -/
def imageLoop : List Part → List String → List String →
    Except HTTPError GenerateImageResponse
  | [], _, _ => .error upstreamEmptyResult
  | part :: rest, texts, thoughts =>
    let texts' := match partText part with
      | some t => if part.thought then texts else texts ++ [t]
      | none => texts
    let thoughts' := match partText part with
      | some t => if part.thought then thoughts ++ [t] else thoughts
      | none => thoughts
    match partImage part with
    | some (mt, d) => .ok ⟨mt, b64encode d, texts', thoughts'⟩
    | none => imageLoop rest texts' thoughts'

/-- image.py lines 212-254: the non-streaming result. Line 212 reads
`getattr(resp, "parts", None) or []` — only the direct attribute, with no
candidates fallback. -/
def generate_image (resp : Chunk) : Except HTTPError GenerateImageResponse :=
  imageLoop (resp.parts.getD []) [] []

/-- Action trace of the non-streaming path: lines 200-254 contain no
`client.close()` call, so no close action occurs on this path. -/
def generate_image_run (resp : Chunk) :
    Except HTTPError GenerateImageResponse × List Action :=
  (generate_image resp, [])

/-! ## Spec-side extraction and aggregation descriptions -/

/-- Written from the spec's words, for comparison with the code: the nested
location of parts, "one level inside a candidates collection's first
element's content". -/
def extractNested (c : Chunk) : List Part :=
  match c.candidates with
  | some (cand :: _) =>
    match cand.content with
    | some ct => ct.parts.getD []
    | none => []
  | _ => []

/-- Written from the spec's words, for comparison with the code: "the list of
parts is taken from the direct parts attribute when present and non-empty,
else from the first element of the candidates collection's content, else the
chunk contributes zero parts". -/
def extract_spec (c : Chunk) : List Part :=
  match c.parts with
  | some ps => if ps = [] then extractNested c else ps
  | none => extractNested c

/-- The non-thought textual parts of a part list, in arrival order. -/
def textsOf (ps : List Part) : List String :=
  ps.filterMap fun p =>
    match partText p with
    | some t => if p.thought then none else some t
    | none => none

/-- The thought textual parts of a part list, in arrival order. -/
def thoughtsOf (ps : List Part) : List String :=
  ps.filterMap fun p =>
    match partText p with
    | some t => if p.thought then some t else none
    | none => none

/-! ## Token service (auth/tokens.py)

`GatewayConfig` is modelled from the spec: the configuration module is not
among the repository files given; per the spec the token service reads an
optional explicit JWT secret, an optional master key, and a configured
default access-token lifetime in minutes. -/

structure GatewayConfig where
  jwt_secret : Option String
  master_key : Option String
  access_token_exp_minutes : Int
deriving DecidableEq

/-- Python truthiness of an optional string: `None` and `""` are falsy. -/
def truthyStr : Option String → Option String
  | some s => if s = "" then none else some s
  | none => none

/-- A raised Python exception of tokens.py: `ValueError` from
`verify_access_token`, `RuntimeError` from `_get_secret`. -/
inductive PyError
  | valueError (msg : String)
  | runtimeError (msg : String)
deriving DecidableEq

/-- tokens.py lines 11-18: `_get_secret`. -/
def _get_secret (config : GatewayConfig) : Except PyError String :=
  match truthyStr config.jwt_secret with
  | some s => .ok s
  | none =>
    match truthyStr config.master_key with
    | some s => .ok s
    | none =>
      .error (.runtimeError "JWT secret not configured. Set jwt_secret or master_key.")

/-- The claim set `{sub, jti, iat, exp}` of an access token. -/
structure Claims where
  sub : String
  jti : String
  iat : Int
  exp : Int
deriving DecidableEq

/-- Modelled from the spec: a compact HMAC-signed token as the external `jwt`
collaborator produces it — the claim set together with the signing secret and
algorithm the signature commits to. -/
structure SignedToken where
  claims : Claims
  secret : String
  alg : String
deriving DecidableEq

/-- Modelled from the spec: the failure modes of the external `jwt`
collaborator's decode — a dedicated expiry failure and a generic invalid-token
failure for everything else (bad signature, wrong algorithm). -/
inductive JwtError
  | expiredSignature
  | invalidToken (msg : String)
deriving DecidableEq

/-- Modelled from the spec: `jwt.encode(payload, secret, algorithm)`. -/
def jwtEncode (payload : Claims) (secret : String) (alg : String) : SignedToken :=
  ⟨payload, secret, alg⟩

/-- Modelled from the spec: `jwt.decode(token, secret, algorithms)` at
verification time `now` — the algorithm must be allowed and the signature must
match, then the expiry claim is checked; a token whose expiry has passed fails
with the dedicated expiry error; only a fully validated claim set is
returned. -/
def jwtDecode (t : SignedToken) (secret : String) (algs : List String)
    (now : Int) : Except JwtError Claims :=
  if ¬ algs.contains t.alg then
    .error (.invalidToken "The specified alg value is not allowed")
  else if t.secret ≠ secret then
    .error (.invalidToken "Signature verification failed")
  else if t.claims.exp < now then .error .expiredSignature
  else .ok t.claims

/-- tokens.py lines 31-47: `sign_access_token`. The Python default expression
is `expires_minutes or config.access_token_exp_minutes`, so both `None` and
the falsy `0` fall through to the configured default; `now` is the issuance
instant in epoch seconds. -/
def sign_access_token (user_id : String) (config : GatewayConfig) (jti : String)
    (expires_minutes : Option Int) (now : Int) : Except PyError SignedToken :=
  let exp_minutes : Int :=
    match expires_minutes with
    | some m => if m = 0 then config.access_token_exp_minutes else m
    | none => config.access_token_exp_minutes
  match _get_secret config with
  | .ok secret => .ok (jwtEncode ⟨user_id, jti, now, now + exp_minutes * 60⟩ secret "HS256")
  | .error e => .error e

/-- tokens.py lines 50-58: `verify_access_token`. The `except` clauses catch
only the jwt errors, so a `RuntimeError` from `_get_secret` propagates; the
expiry failure and the generic failure are re-raised as `ValueError`s with
distinct messages. -/
def verify_access_token (token : SignedToken) (config : GatewayConfig)
    (now : Int) : Except PyError Claims :=
  match _get_secret config with
  | .error e => .error e
  | .ok secret =>
    match jwtDecode token secret ["HS256"] now with
    | .ok payload => .ok payload
    | .error .expiredSignature => .error (.valueError "Access token expired")
    | .error (.invalidToken msg) =>
      .error (.valueError ("Invalid access token: " ++ msg))

/-- Secret and algorithm a signing result committed to, when it produced a
token. -/
def signedWith : Except PyError SignedToken → Option (String × String)
  | .ok t => some (t.secret, t.alg)
  | .error _ => none

/-! ## Profile route (routes/profile.py)

The database row shapes are modelled from the spec (the db model modules are
not among the repository files given): monetary amounts are integers here —
their numeric type plays no role in the claims over this route — and datetime
columns are kept as their already-serialized string forms. The database itself
is a collaborator, modelled as a structure of query oracles so that the route
body is a pure function of it. -/

structure APIKeyRow where
  user_id : Option String
deriving DecidableEq

structure UserRow where
  user_id : String
  «alias» : Option String
  blocked : Bool
  budget_id : Option String
  spend : Int
  budget_started_at : Option String
  next_budget_reset_at : Option String
  metadata_ : List (String × String)
deriving DecidableEq

structure CaretRow where
  provider : Option String
  provider_user_id : Option String
  name : Option String
  email : Option String
  avatar_url : Option String
  metadata_ : List (String × String)
  last_login_at : Option String
deriving DecidableEq

structure BudgetRow where
  budget_id : String
  max_budget : Option Int
  budget_duration_sec : Option Int
deriving DecidableEq

structure UsageWindow where
  requests : Nat
  prompt_tokens : Int
  completion_tokens : Int
  total_tokens : Int
  cost : Int
deriving DecidableEq

structure UsageLogItem where
  id : String
  timestamp : String
  model : String
  provider : Option String
  endpoint : String
  prompt_tokens : Option Int
  completion_tokens : Option Int
  total_tokens : Option Int
  cost : Option Int
  status : String
  error_message : Option String
deriving DecidableEq

/-- The collaborator store as the profile route queries it: user, caret and
budget lookups, the usage aggregate over a window starting at a given instant,
and the recent-usage page. -/
structure ProfileDb where
  findUser : String → Option UserRow
  findCaret : String → Option CaretRow
  findBudget : String → Option BudgetRow
  aggregateUsage : String → Int → UsageWindow
  recentUsage : String → Nat → List UsageLogItem

structure ProfileInfo where
  user_id : String
  provider : Option String
  provider_user_id : Option String
  «alias» : Option String
  name : Option String
  email : Option String
  avatar_url : Option String
  blocked : Bool
  metadata : List (String × String)
  caret_metadata : List (String × String)
  last_login_at : Option String
deriving DecidableEq

structure BudgetInfo where
  budget_id : Option String
  max_budget : Option Int
  budget_duration_sec : Option Int
  spend : Int
  budget_started_at : Option String
  next_budget_reset_at : Option String
deriving DecidableEq

structure ProfileResponse where
  profile : ProfileInfo
  budget : Option BudgetInfo
  usage : List (String × UsageWindow)
  recent_usage : List UsageLogItem
deriving DecidableEq

/-- Python `a or b` on optional strings: the left value when truthy, else the
right value unchanged. -/
def orStr (a b : Option String) : Option String :=
  match truthyStr a with
  | some s => some s
  | none => b

/-- profile.py lines 156-204: the tenant-scoped body of the route, run once a
target user id is fixed; `now` is `_now_naive()` in epoch seconds, and the
three windows subtract 24 hours, 7 days and 30 days from it. -/
def profile_body (target : String) (db : ProfileDb) (recent_limit : Nat)
    (now : Int) : Except HTTPError ProfileResponse :=
  match db.findUser target with
  | none => .error ⟨404, "User \x27" ++ target ++ "\x27 not found"⟩
  | some user_obj =>
    let caret := db.findCaret target
    let budget : Option BudgetRow :=
      match truthyStr user_obj.budget_id with
      | some bid => db.findBudget bid
      | none => none
    let usage_windows : List (String × UsageWindow) :=
      [("last_24h", db.aggregateUsage target (now - 86400)),
       ("last_7d", db.aggregateUsage target (now - 604800)),
       ("last_30d", db.aggregateUsage target (now - 2592000))]
    let recent_logs := db.recentUsage target recent_limit
    let profile : ProfileInfo :=
      { user_id := user_obj.user_id
        provider := match caret with | some c => c.provider | none => none
        provider_user_id := match caret with | some c => c.provider_user_id | none => none
        «alias» := user_obj.«alias»
        name := match caret with | some c => c.name | none => user_obj.«alias»
        email := match caret with | some c => c.email | none => none
        avatar_url := match caret with | some c => c.avatar_url | none => none
        blocked := user_obj.blocked
        metadata := if user_obj.metadata_ = [] then [] else user_obj.metadata_
        caret_metadata :=
          match caret with
          | some c => if c.metadata_ = [] then [] else c.metadata_
          | none => []
        last_login_at := match caret with | some c => c.last_login_at | none => none }
    let budget_info : Option BudgetInfo :=
      match budget with
      | some b =>
        some { budget_id := some b.budget_id
               max_budget := b.max_budget
               budget_duration_sec := b.budget_duration_sec
               spend := user_obj.spend
               budget_started_at := user_obj.budget_started_at
               next_budget_reset_at := user_obj.next_budget_reset_at }
      | none => none
    .ok { profile := profile, budget := budget_info, usage := usage_windows,
          recent_usage := recent_logs }

/-- The client error the master-key path raises when no target user is
supplied (profile.py lines 146-149). -/
def masterNeedsUser : HTTPError :=
  ⟨400, "When using master key, \x27user\x27 query parameter is required"⟩

/-- profile.py lines 132-204: `get_profile`. `auth_result` is the tuple the
credential resolver dependency injects: the API-key row if that scheme won,
whether the master key won, and the user id a verified token resolved to.
`if not user:` and `if not target_user_id:` are Python truthiness on
strings. -/
def get_profile (auth_result : Option APIKeyRow × Bool × Option String)
    (user : Option String) (recent_limit : Nat) (db : ProfileDb)
    (now : Int) : Except HTTPError ProfileResponse :=
  let (api_key, is_master, resolved_user_id) := auth_result
  if is_master then
    match truthyStr user with
    | none => .error masterNeedsUser
    | some u => profile_body u db recent_limit now
  else
    let fallback : Option String :=
      match api_key with
      | some k => k.user_id
      | none => none
    match truthyStr (orStr resolved_user_id fallback) with
    | none => .error ⟨401, "User not resolved"⟩
    | some target => profile_body target db recent_limit now

/-! ## Concrete fixtures used by closed statements -/

/-- A thought-only part. -/
def partThought : Part := ⟨some "pondering", true, none⟩

/-- A text-only part. -/
def partCaption : Part := ⟨some "a caption", false, none⟩

/-- An image-only part whose payload is the single byte 0. -/
def partPng : Part := ⟨none, false, some ⟨some (.bytes [0]), some "image/png"⟩⟩

def chunkThoughtOnly : Chunk := ⟨some [partThought], none⟩

def chunkTextOnly : Chunk := ⟨some [partCaption], none⟩

def chunkImageOnly : Chunk := ⟨some [partPng], none⟩

/-- A response whose parts live only under the candidates location. -/
def chunkNestedOnly : Chunk := ⟨none, some [⟨some ⟨some [partPng]⟩⟩]⟩

/-- A response whose image part comes before a textual part. -/
def chunkImageThenText : Chunk := ⟨some [partPng, partCaption], none⟩

/-- A response whose textual part comes before the image part. -/
def chunkTextThenImage : Chunk := ⟨some [partCaption, partPng], none⟩

/-- A response with no parts at all. -/
def chunkEmpty : Chunk := ⟨none, none⟩

/-- A store in which every lookup comes back empty. -/
def dbEmpty : ProfileDb :=
  ⟨fun _ => none, fun _ => none, fun _ => none, fun _ _ => ⟨0, 0, 0, 0, 0⟩,
   fun _ _ => []⟩

/-- A configuration with an explicit JWT secret. -/
def cfgJwt : GatewayConfig := ⟨some "topsecret", none, 30⟩

/-- A configuration with only a master key. -/
def cfgMaster : GatewayConfig := ⟨none, some "masterkey", 30⟩

/-- A configuration with no signing secret at all. -/
def cfgNone : GatewayConfig := ⟨none, none, 30⟩

end Gateway

namespace Gateway

theorem b64val_b64char : ∀ n, n < 64 → b64val (b64char n) = some n := by decide

theorem b64char_ne_pad : ∀ n, n < 64 → b64char n ≠ '=' := by decide

/-- Standard base64 decoding inverts the encoding on byte lists. -/
theorem b64_decode_encode (bs : List Nat) (h : ∀ b ∈ bs, b < 256) :
    b64decodeChars (b64encodeChars bs) = some bs := by
  induction bs using b64encodeChars.induct with
  | case1 b1 b2 b3 rest ih =>
    have hb1 : b1 < 256 := h b1 (by simp)
    have hb2 : b2 < 256 := h b2 (by simp)
    have hb3 : b3 < 256 := h b3 (by simp)
    have hrest : ∀ b ∈ rest, b < 256 := fun b hb => h b (by simp [hb])
    have h1 : (b1 * 65536 + b2 * 256 + b3) / 262144 < 64 := by omega
    have h2 : (b1 * 65536 + b2 * 256 + b3) / 4096 % 64 < 64 := by omega
    have h3 : (b1 * 65536 + b2 * 256 + b3) / 64 % 64 < 64 := by omega
    have h4 : (b1 * 65536 + b2 * 256 + b3) % 64 < 64 := by omega
    simp only [b64encodeChars, b64decodeChars,
      b64val_b64char _ h1, b64val_b64char _ h2, b64val_b64char _ h3,
      b64val_b64char _ h4, if_neg (b64char_ne_pad _ h3),
      if_neg (b64char_ne_pad _ h4), ih hrest, Option.some.injEq,
      List.cons.injEq, and_true, true_and]
    omega
  | case2 b1 b2 =>
    have hb1 : b1 < 256 := h b1 (by simp)
    have hb2 : b2 < 256 := h b2 (by simp)
    have h1 : (b1 * 1024 + b2 * 4) / 4096 < 64 := by omega
    have h2 : (b1 * 1024 + b2 * 4) / 64 % 64 < 64 := by omega
    have h3 : (b1 * 1024 + b2 * 4) % 64 < 64 := by omega
    simp only [b64encodeChars, b64decodeChars,
      b64val_b64char _ h1, b64val_b64char _ h2, b64val_b64char _ h3,
      if_neg (b64char_ne_pad _ h3), eq_self_iff_true, if_true, and_self,
      Option.some.injEq, List.cons.injEq, and_true, true_and]
    omega
  | case3 b1 =>
    have hb1 : b1 < 256 := h b1 (by simp)
    have h1 : b1 * 16 / 64 < 64 := by omega
    have h2 : b1 * 16 % 64 < 64 := by omega
    simp only [b64encodeChars, b64decodeChars,
      b64val_b64char _ h1, b64val_b64char _ h2, eq_self_iff_true,
      and_self, if_true, Option.some.injEq, List.cons.injEq, and_true,
      true_and]
    omega
  | case4 => rfl

/-- String-level form of the round trip, as a caller of the route sees it. -/
theorem b64_string_roundtrip (bs : List Nat) (h : ∀ b ∈ bs, b < 256) :
    b64decode (b64encode bs) = some bs :=
  b64_decode_encode bs h

end Gateway

namespace Gateway

/-! ## The streaming multiplexer (C1) -/

theorem partEvents_not_terminal (p : Part) :
    ∀ e ∈ partEvents p, isTerminal e = false := by
  intro e he
  unfold partEvents at he
  rcases hpt : partText p with _ | t <;> rcases hpi : partImage p with _ | ⟨mt, d⟩ <;>
    rcases hth : p.thought <;> simp_all [isTerminal] <;>
    rcases he with rfl | rfl <;> rfl

theorem chunkEvents_not_terminal (c : Chunk) :
    ∀ e ∈ chunkEvents c, isTerminal e = false := by
  intro e he
  unfold chunkEvents at he
  rcases List.mem_flatten.mp he with ⟨l, hl, hel⟩
  rcases List.mem_map.mp hl with ⟨p, _, rfl⟩
  exact partEvents_not_terminal p e hel

theorem streamOk_cons_ok (c : Chunk) (rest : List UpstreamStep) :
    streamOk (Except.ok c :: rest) ↔ streamOk rest := by
  constructor
  · intro h x hx
    exact h x (List.mem_cons_of_mem _ hx)
  · intro h x hx
    rcases List.mem_cons.mp hx with rfl | hx
    · exact ⟨c, rfl⟩
    · exact h x hx

theorem event_stream_split (s : List UpstreamStep) :
    ∃ es t, event_stream s = es ++ [t] ∧
      (∀ e ∈ es, isTerminal e = false) ∧ isTerminal t = true ∧
      (t = Event.done ↔ streamOk s) := by
  induction s with
  | nil =>
    refine ⟨[], Event.done, rfl, by simp, rfl, ?_⟩
    simp [streamOk]
  | cons x rest ih =>
    cases x with
    | error m =>
      refine ⟨[], Event.error m, rfl, by simp, rfl, ?_⟩
      constructor
      · intro h
        cases h
      · intro h
        rcases h (Except.error m) (List.mem_cons_self _ _) with ⟨c, hc⟩
        cases hc
    | ok c =>
      rcases ih with ⟨es, t, heq, hes, ht, hiff⟩
      refine ⟨chunkEvents c ++ es, t, ?_, ?_, ht, ?_⟩
      · show chunkEvents c ++ event_stream rest = chunkEvents c ++ es ++ [t]
        rw [heq, List.append_assoc]
      · intro e he
        rcases List.mem_append.mp he with he | he
        · exact chunkEvents_not_terminal c e he
        · exact hes e he
      · rw [hiff, streamOk_cons_ok]

/-- C1: every finite upstream iteration produces exactly one terminal event,
at the very end of the emitted sequence: `done` exactly when every pull
succeeded, an `error` otherwise, never both and never a re-raised exception.
Concretely, the chunk sequence [thought-only, text-only, image-only] yields
[thought, text, image, done], and a thought chunk followed by a raising pull
yields [thought, error]. -/
theorem c1_terminal_event :
    (∀ s : List UpstreamStep, ∃ es t, event_stream s = es ++ [t] ∧
      (∀ e ∈ es, isTerminal e = false) ∧ isTerminal t = true ∧
      (t = Event.done ↔ streamOk s)) ∧
    event_stream [Except.ok chunkThoughtOnly, Except.ok chunkTextOnly,
        Except.ok chunkImageOnly] =
      [Event.thought "pondering", Event.text "a caption",
       Event.image "image/png" "AA==", Event.done] ∧
    event_stream [Except.ok chunkThoughtOnly, Except.error "boom"] =
      [Event.thought "pondering", Event.error "boom"] :=
  ⟨event_stream_split, by decide, by decide⟩

end Gateway

namespace Gateway

/-! ## Part extraction in the two modes (C3) -/

/-- C3 (amended): the streaming extraction `_iter_parts` follows the
direct-then-candidates algorithm the spec states, but the non-streaming
result depends only on the direct `parts` attribute — the candidates
location is never consulted by `generate_image`. -/
theorem c3_extraction_modes :
    (∀ c : Chunk, _iter_parts c = extract_spec c) ∧
    (∀ (p : Option (List Part)) (cands cands' : Option (List Candidate)),
      generate_image ⟨p, cands⟩ = generate_image ⟨p, cands'⟩) := by
  constructor
  · intro c
    rcases c with ⟨_ | ⟨_ | ⟨p, l⟩⟩, cs⟩ <;>
      first
      | rfl
      | (rcases cs with _ | ⟨_ | ⟨⟨_ | ⟨_ | ⟨_ | ⟨q, ql⟩⟩⟩⟩, cl⟩⟩ <;> rfl)
  · intro p cands cands'
    rfl

/-- C3 counterexample: a response whose parts sit only under candidates. The
spec's uniform extraction sees the image part — running the aggregation loop
over `_iter_parts` of it succeeds — yet the non-streaming path reports the
empty-result failure, because line 212 reads only the direct attribute. -/
theorem c3_counterexample :
    _iter_parts chunkNestedOnly = [partPng] ∧
    imageLoop (_iter_parts chunkNestedOnly) [] [] =
      .ok ⟨"image/png", "AA==", [], []⟩ ∧
    generate_image chunkNestedOnly = .error upstreamEmptyResult := by decide

/-! ## Non-streaming aggregation (C4, C5) -/

theorem imageLoop_no_image (ps : List Part) (ts hs : List String)
    (h : ∀ p ∈ ps, partImage p = none) :
    imageLoop ps ts hs = .error upstreamEmptyResult := by
  induction ps generalizing ts hs with
  | nil => rfl
  | cons p rest ih =>
    have hp := h p (by simp)
    simp only [imageLoop, hp]
    exact ih _ _ fun q hq => h q (by simp [hq])

theorem imageLoop_found (pre : List Part) (p : Part) (post : List Part)
    (mt : String) (bs : List Nat) (ts hs : List String)
    (hpre : ∀ q ∈ pre, partImage q = none)
    (hp : partImage p = some (mt, bs)) :
    imageLoop (pre ++ p :: post) ts hs =
      .ok ⟨mt, b64encode bs, ts ++ textsOf (pre ++ [p]),
           hs ++ thoughtsOf (pre ++ [p])⟩ := by
  induction pre generalizing ts hs with
  | nil =>
    rcases hpt : partText p with _ | t <;> rcases hth : p.thought <;>
      simp [imageLoop, hp, hpt, hth, textsOf, thoughtsOf]
  | cons q pre ih =>
    have hq := hpre q (by simp)
    have hpre' : ∀ r ∈ pre, partImage r = none := fun r hr => hpre r (by simp [hr])
    rcases hpt : partText q with _ | t <;> rcases hth : q.thought <;>
      simp [imageLoop, hq, hpt, hth, ih _ _ hpre', textsOf, thoughtsOf]

theorem imageLoop_ok_inv (ps : List Part) (ts hs : List String)
    (r : GenerateImageResponse) (h : imageLoop ps ts hs = .ok r) :
    ∃ pre p post mt bs, ps = pre ++ p :: post ∧
      (∀ q ∈ pre, partImage q = none) ∧ partImage p = some (mt, bs) ∧
      r.mimeType = mt ∧ r.base64 = b64encode bs := by
  induction ps generalizing ts hs with
  | nil => simp [imageLoop] at h
  | cons p rest ih =>
    rcases hpi : partImage p with _ | ⟨mt, bs⟩
    · simp only [imageLoop, hpi] at h
      rcases ih _ _ h with ⟨pre, q, post, mt, bs, hsplit, hpre, hq, hmt, hb⟩
      refine ⟨p :: pre, q, post, mt, bs, by rw [hsplit, List.cons_append], ?_, hq, hmt, hb⟩
      intro x hx
      rcases List.mem_cons.mp hx with rfl | hx
      · exact hpi
      · exact hpre x hx
    · simp only [imageLoop, hpi, Except.ok.injEq] at h
      exact ⟨[], p, rest, mt, bs, rfl, by simp, hpi, by rw [← h], by rw [← h]⟩

/-- C4 (amended): the non-streaming result aggregates the textual and thought
parts, in arrival order within each kind, of exactly the parts up to and
including the one carrying the first binary payload; parts after that one are
not aggregated, and the first payload is returned as the single image. -/
theorem c4_first_image_aggregation (c : Chunk) (pre : List Part) (p : Part)
    (post : List Part) (mt : String) (bs : List Nat)
    (hsplit : c.parts.getD [] = pre ++ p :: post)
    (hpre : ∀ q ∈ pre, partImage q = none)
    (hp : partImage p = some (mt, bs)) :
    generate_image c =
      .ok ⟨mt, b64encode bs, textsOf (pre ++ [p]), thoughtsOf (pre ++ [p])⟩ := by
  unfold generate_image
  rw [hsplit, imageLoop_found pre p post mt bs [] [] hpre hp]
  simp

/-- C4 witness: with the text part before the image part, the text is
aggregated and the payload byte 0 round-trips through the loop. -/
theorem c4_witness :
    generate_image chunkTextThenImage =
      .ok ⟨"image/png", "AA==", ["a caption"], []⟩ :=
  c4_first_image_aggregation chunkTextThenImage [partCaption] partPng []
    "image/png" [0] rfl (by decide) rfl

/-- C4 counterexample: a response in which the binary payload comes first and
a textual part follows. The claim says the texts list aggregates all textual
parts of the entire response, here ["a caption"]; the loop breaks at the
payload and returns an empty texts list. -/
theorem c4_counterexample :
    generate_image chunkImageThenText = .ok ⟨"image/png", "AA==", [], []⟩ ∧
    textsOf (chunkImageThenText.parts.getD []) = ["a caption"] := by decide

/-- C5: without a binary payload in any part the non-streaming path fails
with the UpstreamEmptyResult error, never an empty success; and any success
returns the first payload, whose base64 field decodes back to exactly the
original payload bytes. -/
theorem c5_empty_or_roundtrip (c : Chunk) :
    ((∀ p ∈ c.parts.getD [], partImage p = none) →
      generate_image c = .error upstreamEmptyResult) ∧
    (∀ r, generate_image c = .ok r → ∃ pre p post mt bs,
      c.parts.getD [] = pre ++ p :: post ∧ (∀ q ∈ pre, partImage q = none) ∧
      partImage p = some (mt, bs) ∧ r.base64 = b64encode bs ∧
      ((∀ b ∈ bs, b < 256) → b64decode r.base64 = some bs)) := by
  constructor
  · intro h
    exact imageLoop_no_image _ [] [] h
  · intro r hr
    rcases imageLoop_ok_inv _ [] [] r hr with
      ⟨pre, p, post, mt, bs, hsplit, hpre, hp, _, hb⟩
    refine ⟨pre, p, post, mt, bs, hsplit, hpre, hp, hb, ?_⟩
    intro hbytes
    rw [hb]
    exact b64_string_roundtrip bs hbytes

/-! ## Resource release (C6) -/

/-- C6 (amended): the streaming generator attempts the client release exactly
once, as its final action after all events, on success and on converted
failure alike, and a failing release never changes the emitted events; only
the streaming path does so — the non-streaming path performs no release. -/
theorem c6_stream_release (s : List UpstreamStep) (closeFails : Bool) :
    (event_stream_actions s closeFails).getLast? =
      some (Action.close closeFails) ∧
    ((event_stream_actions s closeFails).filter isClose).length = 1 ∧
    (event_stream_actions s closeFails).filterMap emittedEvent =
      event_stream s := by
  unfold event_stream_actions
  refine ⟨?_, ?_, ?_⟩
  · rw [List.getLast?_concat]
  · simp [List.filter_append, List.filter_map, isClose, Function.comp]
  · simp only [List.filterMap_append, List.filterMap_map]
    have h1 : emittedEvent ∘ Action.emit = some := rfl
    have h2 : List.filterMap emittedEvent [Action.close closeFails] = [] := rfl
    rw [h1, h2, List.filterMap_some, List.append_nil]

/-- C6 counterexample: on the non-streaming path no release action occurs,
neither on a successful run nor on a failing one — against the claim that
every execution path releases the client. -/
theorem c6_counterexample :
    (generate_image_run chunkTextThenImage).2 = [] ∧
    (generate_image_run chunkTextThenImage).1 =
      .ok ⟨"image/png", "AA==", ["a caption"], []⟩ ∧
    (generate_image_run chunkEmpty).2 = [] ∧
    (generate_image_run chunkEmpty).1 = .error upstreamEmptyResult := by decide

end Gateway

namespace Gateway

/-! ## Token service (C2, C7, C8, C10) -/

theorem verify_encode (payload : Claims) (s : String) (config : GatewayConfig)
    (hs : _get_secret config = .ok s) (now : Int)
    (hexp : ¬ payload.exp < now) :
    verify_access_token (jwtEncode payload s "HS256") config now = .ok payload := by
  unfold verify_access_token jwtEncode jwtDecode
  rw [hs]
  simp [hexp]

theorem verify_ok_inv (t : SignedToken) (config : GatewayConfig) (now : Int)
    (claims : Claims) (h : verify_access_token t config now = .ok claims) :
    claims = t.claims ∧ _get_secret config = .ok t.secret ∧
      t.alg = "HS256" ∧ ¬ t.claims.exp < now := by
  unfold verify_access_token at h
  split at h
  · simp at h
  · rename_i s hgs
    split at h
    · rename_i payload hdec
      have hpc : payload = claims := by simpa using h
      unfold jwtDecode at hdec
      split_ifs at hdec with h1 h2 h3
      all_goals cases hdec
      have halg : t.alg = "HS256" := by simpa using h1
      have hsec : t.secret = s := of_not_not h2
      exact ⟨hpc.symm, by rw [hgs, hsec], halg, h3⟩
    · simp at h
    · simp at h

/-- C2: with a signing secret available and a positive configured lifetime
(per the spec, expires-at exceeds issued-at for every valid token), verifying
a token just signed with no explicit lifetime returns exactly the given
subject and token id, and its exp minus iat is the configured lifetime in
minutes times 60 seconds. -/
theorem c2_sign_verify_roundtrip (config : GatewayConfig) (sub jti : String)
    (now : Int) (s : String) (hs : _get_secret config = .ok s)
    (hpos : 0 < config.access_token_exp_minutes) :
    ∃ t claims, sign_access_token sub config jti none now = .ok t ∧
      verify_access_token t config now = .ok claims ∧
      claims.sub = sub ∧ claims.jti = jti ∧
      claims.exp - claims.iat = config.access_token_exp_minutes * 60 := by
  have hexp : ¬ ((⟨sub, jti, now, now + config.access_token_exp_minutes * 60⟩ :
      Claims).exp < now) := by
    dsimp only
    omega
  refine ⟨jwtEncode ⟨sub, jti, now, now + config.access_token_exp_minutes * 60⟩
      s "HS256",
    ⟨sub, jti, now, now + config.access_token_exp_minutes * 60⟩, ?_, ?_, rfl, rfl, by dsimp only; omega⟩
  · unfold sign_access_token
    rw [hs]
  · exact verify_encode _ s config hs now hexp

/-- C2 witness: subject alice, token id tok1, an explicit-secret
configuration with a 30-minute lifetime, signed and verified at instant
1000. -/
theorem c2_witness :
    ∃ t claims, sign_access_token "alice" cfgJwt "tok1" none 1000 = .ok t ∧
      verify_access_token t cfgJwt 1000 = .ok claims ∧
      claims.sub = "alice" ∧ claims.jti = "tok1" ∧
      claims.exp - claims.iat = cfgJwt.access_token_exp_minutes * 60 :=
  c2_sign_verify_roundtrip cfgJwt "alice" "tok1" 1000 "topsecret" (by decide)
    (by decide)

/-- C7: a well-signed token whose expiry has passed fails with exactly the
expiry error; that error differs from every error of the other verification
failures; and a successful verification implies every check passed — the
claims returned are the token's, the signature matched the resolved secret,
the algorithm was the allowed one and the expiry had not passed. -/
theorem c7_expired_distinct (t : SignedToken) (config : GatewayConfig)
    (now : Int) (s : String) (hs : _get_secret config = .ok s)
    (hsec : t.secret = s) (halg : t.alg = "HS256")
    (hexp : t.claims.exp < now) :
    verify_access_token t config now =
      .error (.valueError "Access token expired") ∧
    (∀ msg, (PyError.valueError "Access token expired") ≠
      .valueError ("Invalid access token: " ++ msg)) ∧
    (∀ t2 c2 n2 cl, verify_access_token t2 c2 n2 = .ok cl →
      cl = t2.claims ∧ _get_secret c2 = .ok t2.secret ∧
        t2.alg = "HS256" ∧ ¬ t2.claims.exp < n2) := by
  refine ⟨?_, ?_, fun t2 c2 n2 cl h => verify_ok_inv t2 c2 n2 cl h⟩
  · unfold verify_access_token jwtDecode
    rw [hs, halg, hsec]
    simp [hexp]
  · intro msg h
    have hlen := congrArg String.length (PyError.valueError.inj h)
    rw [String.length_append] at hlen
    have h1 : ("Access token expired").length = 20 := by decide
    have h2 : ("Invalid access token: ").length = 22 := by decide
    omega

/-- C7 witness: a token with secret and algorithm matching the explicit-secret
configuration, expiry 10, verified at instant 1000. -/
theorem c7_witness :
    verify_access_token (jwtEncode ⟨"alice", "tok1", 0, 10⟩ "topsecret" "HS256")
      cfgJwt 1000 = .error (.valueError "Access token expired") :=
  (c7_expired_distinct (jwtEncode ⟨"alice", "tok1", 0, 10⟩ "topsecret" "HS256")
    cfgJwt 1000 "topsecret" (by decide) rfl rfl (by decide)).1

/-- C8: the signing secret is the explicit JWT secret when that is configured
(non-empty), else the master key when that is configured, and with neither
the signing call fails with the configuration error; every produced token is
signed, with that resolved secret under HS256. -/
theorem c8_secret_resolution (config : GatewayConfig) (sub jti : String)
    (em : Option Int) (now : Int) :
    (∀ s, truthyStr config.jwt_secret = some s →
      signedWith (sign_access_token sub config jti em now) = some (s, "HS256")) ∧
    (truthyStr config.jwt_secret = none →
      ∀ s, truthyStr config.master_key = some s →
        signedWith (sign_access_token sub config jti em now) = some (s, "HS256")) ∧
    (truthyStr config.jwt_secret = none → truthyStr config.master_key = none →
      sign_access_token sub config jti em now = .error (.runtimeError
        "JWT secret not configured. Set jwt_secret or master_key.")) := by
  refine ⟨?_, ?_, ?_⟩
  · intro s h
    unfold sign_access_token _get_secret
    rw [h]
    rfl
  · intro h1 s h2
    unfold sign_access_token _get_secret
    rw [h1, h2]
    rfl
  · intro h1 h2
    unfold sign_access_token _get_secret
    rw [h1, h2]

/-- C10: an explicit lifetime of 0 minutes is falsy in the Python default
expression, so signing with it is identical to signing with no lifetime
argument, and with a positive configured default the resulting token is not
already expired at issuance. -/
theorem c10_zero_lifetime (config : GatewayConfig) (sub jti : String)
    (now : Int) :
    sign_access_token sub config jti (some 0) now =
      sign_access_token sub config jti none now ∧
    (0 < config.access_token_exp_minutes →
      ∀ t, sign_access_token sub config jti (some 0) now = .ok t →
        now < t.claims.exp) := by
  constructor
  · rfl
  · intro hpos t ht
    unfold sign_access_token at ht
    cases hgs : _get_secret config with
    | error e => rw [hgs] at ht; cases ht
    | ok s =>
      rw [hgs] at ht
      cases ht
      dsimp only [jwtEncode]
      omega

/-! ## Profile route (C9) -/

/-- C9: a master-key-authenticated profile request without a truthy `user`
parameter fails with the 400 client error, for every database state — no
tenant-scoped query result influences the outcome. -/
theorem c9_master_requires_user (api_key : Option APIKeyRow)
    (resolved : Option String) (user : Option String) (recent_limit : Nat)
    (db : ProfileDb) (now : Int) (h : truthyStr user = none) :
    get_profile (api_key, true, resolved) user recent_limit db now =
      .error masterNeedsUser := by
  unfold get_profile
  simp [h]

/-- C9 witness: master-key auth with no user parameter against the empty
store. -/
theorem c9_witness :
    get_profile (none, true, none) none 10 dbEmpty 0 = .error masterNeedsUser :=
  c9_master_requires_user none none none 10 dbEmpty 0 rfl

end Gateway
